import Mathlib

/-!
Verification of the msvcrt stub layer (src/dlls/msvcrt/stubs.c): a shallow
embedding of the Win32-error-to-NTSTATUS translator, the NtQueryInformationFile
dispatcher with its per-class handlers and modern/legacy host fallback, the
RTL bitmap run operations, and RtlTimeToSecondsSince1970, together with proofs
of the specified properties.

Machine integers are modelled as `Nat`; DWORD/ULONG values taken from the
Windows headers are spelled out as named constants.  Host Win32 calls
(GetFileInformationByHandleEx, GetFileInformationByHandle, SetFilePointerEx)
are modelled as an oracle record `Host` giving each call's outcome: either the
data the call fills in, or the `GetLastError` code it fails with.
-/

/-! ## Win32 error codes (winerror.h values used by stubs.c) -/

def ERROR_SUCCESS : Nat := 0
def ERROR_INVALID_FUNCTION : Nat := 1
def ERROR_FILE_NOT_FOUND : Nat := 2
def ERROR_PATH_NOT_FOUND : Nat := 3
def ERROR_ACCESS_DENIED : Nat := 5
def ERROR_INVALID_HANDLE : Nat := 6
def ERROR_NOT_ENOUGH_MEMORY : Nat := 8
def ERROR_SHARING_VIOLATION : Nat := 32
def ERROR_NOT_SUPPORTED : Nat := 50
def ERROR_INVALID_PARAMETER : Nat := 87
def ERROR_BUFFER_OVERFLOW : Nat := 111
def ERROR_CALL_NOT_IMPLEMENTED : Nat := 120
def ERROR_MORE_DATA : Nat := 234
def ERROR_PRIVILEGE_NOT_HELD : Nat := 1314

/-! ## NTSTATUS codes (ntstatus.h values used by stubs.c) -/

def STATUS_SUCCESS : Nat := 0
def STATUS_BUFFER_OVERFLOW : Nat := 0x80000005
def STATUS_UNSUCCESSFUL : Nat := 0xC0000001
def STATUS_NOT_IMPLEMENTED : Nat := 0xC0000002
def STATUS_INVALID_INFO_CLASS : Nat := 0xC0000003
def STATUS_INFO_LENGTH_MISMATCH : Nat := 0xC0000004
def STATUS_INVALID_HANDLE : Nat := 0xC0000008
def STATUS_INVALID_PARAMETER : Nat := 0xC000000D
def STATUS_INVALID_DEVICE_REQUEST : Nat := 0xC0000010
def STATUS_ACCESS_DENIED : Nat := 0xC0000022
def STATUS_OBJECT_NAME_NOT_FOUND : Nat := 0xC0000034
def STATUS_OBJECT_PATH_NOT_FOUND : Nat := 0xC000003A
def STATUS_SHARING_VIOLATION : Nat := 0xC0000043
def STATUS_PRIVILEGE_NOT_HELD : Nat := 0xC0000061
def STATUS_INSUFFICIENT_RESOURCES : Nat := 0xC000009A
def STATUS_NOT_SUPPORTED : Nat := 0xC00000BB

/-- Shallow embedding of `status_from_win32_error` (src/dlls/msvcrt/stubs.c,
lines 20-54): the C `switch` over the host error code, rendered as a chain of
equality tests in the same case order, with the `default` arm last. -/
def status_from_win32_error (error : Nat) : Nat :=
  if error = ERROR_SUCCESS then STATUS_SUCCESS
  else if error = ERROR_INVALID_HANDLE then STATUS_INVALID_HANDLE
  else if error = ERROR_ACCESS_DENIED then STATUS_ACCESS_DENIED
  else if error = ERROR_FILE_NOT_FOUND then STATUS_OBJECT_NAME_NOT_FOUND
  else if error = ERROR_PATH_NOT_FOUND then STATUS_OBJECT_PATH_NOT_FOUND
  else if error = ERROR_NOT_ENOUGH_MEMORY then STATUS_INSUFFICIENT_RESOURCES
  else if error = ERROR_INVALID_PARAMETER then STATUS_INVALID_PARAMETER
  else if error = ERROR_MORE_DATA then STATUS_BUFFER_OVERFLOW
  else if error = ERROR_BUFFER_OVERFLOW then STATUS_BUFFER_OVERFLOW
  else if error = ERROR_NOT_SUPPORTED then STATUS_NOT_SUPPORTED
  else if error = ERROR_SHARING_VIOLATION then STATUS_SHARING_VIOLATION
  else if error = ERROR_PRIVILEGE_NOT_HELD then STATUS_PRIVILEGE_NOT_HELD
  else if error = ERROR_INVALID_FUNCTION then STATUS_INVALID_DEVICE_REQUEST
  else if error = ERROR_CALL_NOT_IMPLEMENTED then STATUS_NOT_IMPLEMENTED
  else STATUS_UNSUCCESSFUL

/-- Shallow embedding of `should_fallback_to_legacy_file_info`
(src/dlls/msvcrt/stubs.c, lines 56-59). -/
def should_fallback_to_legacy_file_info (error : Nat) : Bool :=
  error == ERROR_CALL_NOT_IMPLEMENTED || error == ERROR_INVALID_FUNCTION ||
    error == ERROR_NOT_SUPPORTED

/-! ## Time conversion (RtlTimeToSecondsSince1970, lines 266-288) -/

/-- Guest `LARGE_INTEGER`, as the pair of its 32-bit parts.  `highPart` is the
stored 32-bit pattern (the C `LONG` reinterpreted as unsigned). -/
structure LARGE_INTEGER where
  lowPart : Nat
  highPart : Nat
deriving DecidableEq

/-- The 64-bit tick value the C code assembles from the two 32-bit halves
(`stubs.c` lines 276-277); each half is masked to 32 bits exactly as the C
casts do. -/
def LARGE_INTEGER.ticksOf (t : LARGE_INTEGER) : Nat :=
  t.lowPart % 4294967296 + t.highPart % 4294967296 * 4294967296

/-- Number of 100ns ticks between 1601-01-01 and 1970-01-01:
`epoch_difference * ticks_per_second` from `stubs.c` lines 268-270. -/
def epoch_ticks : Nat := 11644473600 * 10000000

/-- Shallow embedding of `RtlTimeToSecondsSince1970` (src/dlls/msvcrt/stubs.c,
lines 266-288).  `timeNull`/`resultNull` model null pointer arguments;
`resultPrev` is the value in the caller's output word before the call, and the
second component of the result is its value after the call (unchanged on every
failure path).  The final `% 4294967296` is the C `(ULONG)` cast. -/
def RtlTimeToSecondsSince1970 (timeNull resultNull : Bool) (time : LARGE_INTEGER)
    (resultPrev : Nat) : Bool × Nat :=
  if timeNull || resultNull then (false, resultPrev)
  else
    let ticks := time.ticksOf
    if ticks < epoch_ticks then (false, resultPrev)
    else
      let d := ticks - epoch_ticks
      if 4294967295 < d / 10000000 then (false, resultPrev)
      else (true, d / 10000000 % 4294967296)

/-! ## Claim C4: the status translator table -/

/-- C4: `status_from_win32_error` is a pure total function (a Lean `def` on
all of `Nat`); each listed common host error maps to its specific guest
status, and every error code outside the table maps to the generic
`STATUS_UNSUCCESSFUL`. -/
theorem status_translator_table (e : Nat)
    (h : e ∉ ([0, 6, 5, 2, 3, 8, 87, 234, 111, 50, 32, 1314, 1, 120] : List Nat)) :
    status_from_win32_error ERROR_SUCCESS = STATUS_SUCCESS ∧
    status_from_win32_error ERROR_INVALID_HANDLE = STATUS_INVALID_HANDLE ∧
    status_from_win32_error ERROR_ACCESS_DENIED = STATUS_ACCESS_DENIED ∧
    status_from_win32_error ERROR_FILE_NOT_FOUND = STATUS_OBJECT_NAME_NOT_FOUND ∧
    status_from_win32_error ERROR_PATH_NOT_FOUND = STATUS_OBJECT_PATH_NOT_FOUND ∧
    status_from_win32_error ERROR_NOT_ENOUGH_MEMORY = STATUS_INSUFFICIENT_RESOURCES ∧
    status_from_win32_error ERROR_INVALID_PARAMETER = STATUS_INVALID_PARAMETER ∧
    status_from_win32_error ERROR_MORE_DATA = STATUS_BUFFER_OVERFLOW ∧
    status_from_win32_error ERROR_BUFFER_OVERFLOW = STATUS_BUFFER_OVERFLOW ∧
    status_from_win32_error ERROR_NOT_SUPPORTED = STATUS_NOT_SUPPORTED ∧
    status_from_win32_error ERROR_SHARING_VIOLATION = STATUS_SHARING_VIOLATION ∧
    status_from_win32_error ERROR_PRIVILEGE_NOT_HELD = STATUS_PRIVILEGE_NOT_HELD ∧
    status_from_win32_error ERROR_INVALID_FUNCTION = STATUS_INVALID_DEVICE_REQUEST ∧
    status_from_win32_error ERROR_CALL_NOT_IMPLEMENTED = STATUS_NOT_IMPLEMENTED ∧
    status_from_win32_error e = STATUS_UNSUCCESSFUL := by
  simp only [List.mem_cons, List.not_mem_nil, or_false, not_or] at h
  obtain ⟨h0, h6, h5, h2, h3, h8, h87, h234, h111, h50, h32, h1314, h1, h120⟩ := h
  refine ⟨by decide, by decide, by decide, by decide, by decide, by decide, by decide,
    by decide, by decide, by decide, by decide, by decide, by decide, by decide, ?_⟩
  simp [status_from_win32_error, ERROR_SUCCESS, ERROR_INVALID_HANDLE, ERROR_ACCESS_DENIED,
    ERROR_FILE_NOT_FOUND, ERROR_PATH_NOT_FOUND, ERROR_NOT_ENOUGH_MEMORY,
    ERROR_INVALID_PARAMETER, ERROR_MORE_DATA, ERROR_BUFFER_OVERFLOW, ERROR_NOT_SUPPORTED,
    ERROR_SHARING_VIOLATION, ERROR_PRIVILEGE_NOT_HELD, ERROR_INVALID_FUNCTION,
    ERROR_CALL_NOT_IMPLEMENTED, h0, h6, h5, h2, h3, h8, h87, h234, h111, h50, h32,
    h1314, h1, h120]

/-- Witness for C4 at the concrete untabled error code 7. -/
theorem status_translator_table_witness :
    (7 : Nat) ∉ ([0, 6, 5, 2, 3, 8, 87, 234, 111, 50, 32, 1314, 1, 120] : List Nat) ∧
    status_from_win32_error 7 = STATUS_UNSUCCESSFUL :=
  ⟨by decide, (status_translator_table 7 (by decide)).2.2.2.2.2.2.2.2.2.2.2.2.2.2⟩

/-! ## Claim C5: secondsSince1970 failure cases -/

/-- C5: with non-null arguments, a tick value strictly below the epoch
threshold, or one whose derived second count exceeds 0xFFFFFFFF, makes
`RtlTimeToSecondsSince1970` return false and leave the output word unchanged. -/
theorem secondsSince1970_failure (time : LARGE_INTEGER) (prev : Nat)
    (h : time.ticksOf < 116444736000000000 ∨
         4294967295 < (time.ticksOf - 116444736000000000) / 10000000) :
    RtlTimeToSecondsSince1970 false false time prev = (false, prev) := by
  have he : epoch_ticks = 116444736000000000 := by decide
  rcases h with h | h
  · simp [RtlTimeToSecondsSince1970, he, h]
  · have h2 : ¬ time.ticksOf < epoch_ticks := by
      rw [he]
      intro hlt
      have : time.ticksOf - 116444736000000000 = 0 := by omega
      rw [this] at h
      simp at h
    simp [RtlTimeToSecondsSince1970, h2, he, h]

/-- Witness for C5 at tick value 0 (the all-zero LARGE_INTEGER), below the
epoch threshold, with previous output word 7. -/
theorem secondsSince1970_failure_witness :
    ((LARGE_INTEGER.mk 0 0).ticksOf < 116444736000000000 ∨
      4294967295 < ((LARGE_INTEGER.mk 0 0).ticksOf - 116444736000000000) / 10000000) ∧
    RtlTimeToSecondsSince1970 false false (LARGE_INTEGER.mk 0 0) 7 = (false, 7) :=
  ⟨by decide, secondsSince1970_failure (LARGE_INTEGER.mk 0 0) 7 (by decide)⟩

/-! ## Claim C6: secondsSince1970 round trip -/

/-- C6: for tick values at or above the epoch threshold whose derived second
count fits in 32 bits, `RtlTimeToSecondsSince1970` succeeds, and re-encoding
the returned seconds (seconds × 10,000,000 + epoch ticks) reproduces the input
tick value truncated down to a whole multiple of 10,000,000 ticks. -/
theorem secondsSince1970_roundtrip (time : LARGE_INTEGER) (prev : Nat)
    (h1 : 116444736000000000 ≤ time.ticksOf)
    (h2 : (time.ticksOf - 116444736000000000) / 10000000 ≤ 4294967295) :
    (RtlTimeToSecondsSince1970 false false time prev).1 = true ∧
    (RtlTimeToSecondsSince1970 false false time prev).2 * 10000000 + 116444736000000000 =
      time.ticksOf / 10000000 * 10000000 := by
  have he : epoch_ticks = 116444736000000000 := by decide
  have hlt : ¬ time.ticksOf < epoch_ticks := by omega
  have hover : ¬ 4294967295 < (time.ticksOf - epoch_ticks) / 10000000 := by
    rw [he]; omega
  refine ⟨by simp [RtlTimeToSecondsSince1970, hlt, hover], ?_⟩
  simp only [RtlTimeToSecondsSince1970, Bool.or_self, Bool.false_eq_true, if_false,
    hlt, hover, if_neg, ite_false]
  have hmod : (time.ticksOf - epoch_ticks) / 10000000 % 4294967296 =
      (time.ticksOf - epoch_ticks) / 10000000 := by
    apply Nat.mod_eq_of_lt
    rw [he]; omega
  rw [hmod]
  obtain ⟨d, hd⟩ : ∃ d, time.ticksOf = 10000000 * 11644473600 + d :=
    ⟨time.ticksOf - epoch_ticks, by rw [he] at *; omega⟩
  rw [he]
  rw [hd]
  have hsub : 10000000 * 11644473600 + d - 116444736000000000 = d := by omega
  rw [hsub, Nat.mul_add_div (by norm_num)]
  generalize d / 10000000 = q
  omega

/-- Witness for C6 at the exact epoch threshold tick value. -/
theorem secondsSince1970_roundtrip_witness :
    (116444736000000000 ≤
       (LARGE_INTEGER.mk (116444736000000000 % 4294967296)
         (116444736000000000 / 4294967296)).ticksOf) ∧
    (RtlTimeToSecondsSince1970 false false
       (LARGE_INTEGER.mk (116444736000000000 % 4294967296)
         (116444736000000000 / 4294967296)) 0).1 = true ∧
    (RtlTimeToSecondsSince1970 false false
       (LARGE_INTEGER.mk (116444736000000000 % 4294967296)
         (116444736000000000 / 4294967296)) 0).2 * 10000000 + 116444736000000000 =
      (LARGE_INTEGER.mk (116444736000000000 % 4294967296)
         (116444736000000000 / 4294967296)).ticksOf / 10000000 * 10000000 :=
  ⟨by decide,
    secondsSince1970_roundtrip
      (LARGE_INTEGER.mk (116444736000000000 % 4294967296)
        (116444736000000000 / 4294967296)) 0 (by decide) (by decide)⟩

/-! ## Bitmap run engine (RtlSetBits / RtlAreBitsSet / RtlAreBitsClear,
lines 193-255).  The caller-supplied ULONG word buffer is a `List Nat`;
`Option` models null pointers.  Word width is `sizeof(ULONG) * 8 = 32`. -/

/-- Guest `RTL_BITMAP`: bit capacity plus the borrowed word buffer
(`none` models a null `Buffer` pointer). -/
structure RTL_BITMAP where
  SizeOfBitMap : Nat
  Buffer : Option (List Nat)
deriving DecidableEq

/-- Word read `buffer[i]`; out-of-range reads default to 0 (the C would be out
of bounds there; theorems track accessed indices separately). -/
def wordOf (buf : List Nat) (i : Nat) : Nat :=
  buf.getD i 0

/-- The C bit test `buffer[bit / 32] & (1u << (bit % 32))`, as a Bool. -/
def bitIsSet (buf : List Nat) (bit : Nat) : Bool :=
  wordOf buf (bit / 32) &&& (1 <<< (bit % 32)) != 0

/-- The C bit store `buffer[bit / 32] |= 1u << (bit % 32)`. -/
def setBitInBuf (buf : List Nat) (bit : Nat) : List Nat :=
  buf.set (bit / 32) (wordOf buf (bit / 32) ||| (1 <<< (bit % 32)))

/-- Loop body of `RtlSetBits` (lines 212-216): sets `count` bits starting at
`start`, returning the new buffer and the list of word indices written. -/
def RtlSetBitsLoop (buf : List Nat) (start : Nat) : Nat → List Nat × List Nat
  | 0 => (buf, [])
  | Nat.succ k =>
    let r := RtlSetBitsLoop (setBitInBuf buf start) (start + 1) k
    (r.1, start / 32 :: r.2)

/-- Loop body of `RtlAreBitsSet` (lines 229-234): tests `count` bits starting
at `start`, stopping at the first clear bit; returns the verdict and the list
of word indices read. -/
def RtlAreBitsSetLoop (buf : List Nat) (start : Nat) : Nat → Bool × List Nat
  | 0 => (true, [])
  | Nat.succ k =>
    if bitIsSet buf start then
      let r := RtlAreBitsSetLoop buf (start + 1) k
      (r.1, start / 32 :: r.2)
    else (false, [start / 32])

/-- Loop body of `RtlAreBitsClear` (lines 248-253): stops at the first set
bit. -/
def RtlAreBitsClearLoop (buf : List Nat) (start : Nat) : Nat → Bool × List Nat
  | 0 => (true, [])
  | Nat.succ k =>
    if bitIsSet buf start then (false, [start / 32])
    else
      let r := RtlAreBitsClearLoop buf (start + 1) k
      (r.1, start / 32 :: r.2)

/-- Shallow embedding of `RtlSetBits` (src/dlls/msvcrt/stubs.c, lines
202-217).  Returns the bitmap after the call together with every word index
the call read or wrote. -/
def RtlSetBits (bitmap : Option RTL_BITMAP) (start count : Nat) :
    Option RTL_BITMAP × List Nat :=
  match bitmap with
  | none => (none, [])
  | some bm =>
    match bm.Buffer with
    | none => (some bm, [])
    | some buf =>
      if count = 0 then (some bm, [])
      else if bm.SizeOfBitMap ≤ start ∨ bm.SizeOfBitMap - start < count then (some bm, [])
      else
        let r := RtlSetBitsLoop buf start count
        (some ⟨bm.SizeOfBitMap, some r.1⟩, r.2)

/-- Shallow embedding of `RtlAreBitsSet` (src/dlls/msvcrt/stubs.c, lines
219-236), returning the verdict and the word indices read. -/
def RtlAreBitsSet (bitmap : Option RTL_BITMAP) (start count : Nat) :
    Bool × List Nat :=
  match bitmap with
  | none => (false, [])
  | some bm =>
    match bm.Buffer with
    | none => (false, [])
    | some buf =>
      if count = 0 then (false, [])
      else if bm.SizeOfBitMap ≤ start ∨ bm.SizeOfBitMap - start < count then (false, [])
      else RtlAreBitsSetLoop buf start count

/-- Shallow embedding of `RtlAreBitsClear` (src/dlls/msvcrt/stubs.c, lines
238-255). -/
def RtlAreBitsClear (bitmap : Option RTL_BITMAP) (start count : Nat) :
    Bool × List Nat :=
  match bitmap with
  | none => (false, [])
  | some bm =>
    match bm.Buffer with
    | none => (false, [])
    | some buf =>
      if count = 0 then (false, [])
      else if bm.SizeOfBitMap ≤ start ∨ bm.SizeOfBitMap - start < count then (false, [])
      else RtlAreBitsClearLoop buf start count

/-! ## Bitmap helper lemmas -/

/-- Writing past the end of a list is the identity. -/
theorem set_of_length_le {α : Type} :
    ∀ (l : List α) (i : Nat) (a : α), l.length ≤ i → l.set i a = l := by
  intro l
  induction l with
  | nil => intro i a _; rfl
  | cons x xs ih =>
    intro i a h
    cases i with
    | zero => simp at h
    | succ j =>
      simp only [List.set]
      rw [ih j a (by simpa using h)]

/-- Reading back the word just written. -/
theorem wordOf_set_self :
    ∀ (buf : List Nat) (w v : Nat), w < buf.length → wordOf (buf.set w v) w = v := by
  intro buf
  induction buf with
  | nil => intro w v h; simp at h
  | cons x xs ih =>
    intro w v h
    cases w with
    | zero => rfl
    | succ j => exact ih j v (by simpa using h)

/-- Writing one word leaves every other word unchanged. -/
theorem wordOf_set_ne :
    ∀ (buf : List Nat) (w w2 v : Nat), w2 ≠ w → wordOf (buf.set w v) w2 = wordOf buf w2 := by
  intro buf
  induction buf with
  | nil => intro w w2 v _; rfl
  | cons x xs ih =>
    intro w w2 v h
    cases w with
    | zero =>
      cases w2 with
      | zero => exact absurd rfl h
      | succ j => rfl
    | succ j =>
      cases w2 with
      | zero => rfl
      | succ j2 => exact ih j j2 v (by omega)

/-- Unchanged length under `setBitInBuf`. -/
theorem length_setBitInBuf (buf : List Nat) (bit : Nat) :
    (setBitInBuf buf bit).length = buf.length := by
  simp [setBitInBuf]

/-- The C mask test agrees with `Nat.testBit`. -/
theorem bitIsSet_eq_testBit (buf : List Nat) (bit : Nat) :
    bitIsSet buf bit = Nat.testBit (wordOf buf (bit / 32)) (bit % 32) := by
  rw [bitIsSet, Nat.shiftLeft_eq, one_mul, Nat.and_two_pow]
  cases h : Nat.testBit (wordOf buf (bit / 32)) (bit % 32)
  · simp [h]
  · have h2 : (2 : Nat) ^ (bit % 32) ≠ 0 := (Nat.two_pow_pos (bit % 32)).ne'
    simp [h, h2]

/-- Setting a bit whose word is inside the buffer makes that bit read as set. -/
theorem bitIsSet_setBitInBuf_self (buf : List Nat) (bit : Nat)
    (h : bit / 32 < buf.length) :
    bitIsSet (setBitInBuf buf bit) bit = true := by
  rw [bitIsSet_eq_testBit, setBitInBuf, wordOf_set_self _ _ _ h, Nat.shiftLeft_eq, one_mul,
    Nat.testBit_lor]
  simp [Nat.testBit_two_pow_self]

/-- Setting one bit leaves every other bit unchanged. -/
theorem bitIsSet_setBitInBuf_ne (buf : List Nat) (bit b : Nat) (h : b ≠ bit) :
    bitIsSet (setBitInBuf buf bit) b = bitIsSet buf b := by
  by_cases hw : b / 32 = bit / 32
  · have hb := Nat.div_add_mod b 32
    have hbit := Nat.div_add_mod bit 32
    by_cases hlen : bit / 32 < buf.length
    · rw [bitIsSet_eq_testBit, bitIsSet_eq_testBit, setBitInBuf, hw,
        wordOf_set_self _ _ _ hlen, Nat.shiftLeft_eq, one_mul, Nat.testBit_lor,
        Nat.testBit_two_pow_of_ne (by omega : bit % 32 ≠ b % 32)]
      simp
    · rw [setBitInBuf, set_of_length_le _ _ _ (by omega)]
  · rw [bitIsSet_eq_testBit, bitIsSet_eq_testBit, setBitInBuf,
      wordOf_set_ne _ _ _ _ hw]

/-- Setting a bit never clears any bit. -/
theorem bitIsSet_setBitInBuf_mono (buf : List Nat) (bit b : Nat)
    (h : bitIsSet buf b = true) :
    bitIsSet (setBitInBuf buf bit) b = true := by
  by_cases hb : b = bit
  · subst hb
    by_cases hlen : b / 32 < buf.length
    · exact bitIsSet_setBitInBuf_self buf b hlen
    · rw [setBitInBuf, set_of_length_le _ _ _ (by omega)]
      exact h
  · rw [bitIsSet_setBitInBuf_ne buf bit b hb]
    exact h

/-- The set loop preserves the buffer length. -/
theorem RtlSetBitsLoop_length :
    ∀ (count : Nat) (buf : List Nat) (start : Nat),
      (RtlSetBitsLoop buf start count).1.length = buf.length := by
  intro count
  induction count with
  | zero => intro buf start; rfl
  | succ k ih =>
    intro buf start
    simp only [RtlSetBitsLoop]
    rw [ih, length_setBitInBuf]

/-- Bits outside the written run are untouched by the set loop. -/
theorem RtlSetBitsLoop_frame :
    ∀ (count : Nat) (buf : List Nat) (start b : Nat),
      b < start ∨ start + count ≤ b →
      bitIsSet (RtlSetBitsLoop buf start count).1 b = bitIsSet buf b := by
  intro count
  induction count with
  | zero => intro buf start b _; rfl
  | succ k ih =>
    intro buf start b h
    simp only [RtlSetBitsLoop]
    rw [ih _ _ _ (by omega), bitIsSet_setBitInBuf_ne _ _ _ (by omega)]

/-- The set loop never clears a bit. -/
theorem RtlSetBitsLoop_mono :
    ∀ (count : Nat) (buf : List Nat) (start b : Nat),
      bitIsSet buf b = true →
      bitIsSet (RtlSetBitsLoop buf start count).1 b = true := by
  intro count
  induction count with
  | zero => intro buf start b h; exact h
  | succ k ih =>
    intro buf start b h
    simp only [RtlSetBitsLoop]
    exact ih _ _ _ (bitIsSet_setBitInBuf_mono _ _ _ h)

/-- Every bit of the run is set after the set loop, provided the run's words
are inside the buffer. -/
theorem RtlSetBitsLoop_sets :
    ∀ (count : Nat) (buf : List Nat) (start b : Nat),
      start ≤ b → b < start + count →
      (∀ j, start ≤ j → j < start + count → j / 32 < buf.length) →
      bitIsSet (RtlSetBitsLoop buf start count).1 b = true := by
  intro count
  induction count with
  | zero => intro buf start b h1 h2 _; omega
  | succ k ih =>
    intro buf start b h1 h2 hwf
    simp only [RtlSetBitsLoop]
    by_cases hb : b = start
    · subst hb
      exact RtlSetBitsLoop_mono _ _ _ _
        (bitIsSet_setBitInBuf_self buf b (hwf b h1 h2))
    · refine ih _ _ _ (by omega) (by omega) ?_
      intro j hj1 hj2
      rw [length_setBitInBuf]
      exact hwf j (by omega) (by omega)

/-- The all-set test loop succeeds on a run of set bits. -/
theorem RtlAreBitsSetLoop_all :
    ∀ (count : Nat) (buf : List Nat) (start : Nat),
      (∀ b, start ≤ b → b < start + count → bitIsSet buf b = true) →
      (RtlAreBitsSetLoop buf start count).1 = true := by
  intro count
  induction count with
  | zero => intro buf start _; rfl
  | succ k ih =>
    intro buf start h
    simp only [RtlAreBitsSetLoop]
    rw [if_pos (h start (le_refl start) (by omega))]
    exact ih _ _ (fun b hb1 hb2 => h b (by omega) (by omega))

/-- The all-clear test loop succeeds on a run of clear bits. -/
theorem RtlAreBitsClearLoop_all :
    ∀ (count : Nat) (buf : List Nat) (start : Nat),
      (∀ b, start ≤ b → b < start + count → bitIsSet buf b = false) →
      (RtlAreBitsClearLoop buf start count).1 = true := by
  intro count
  induction count with
  | zero => intro buf start _; rfl
  | succ k ih =>
    intro buf start h
    simp only [RtlAreBitsClearLoop]
    rw [if_neg (by simp [h start (le_refl start) (by omega)])]
    exact ih _ _ (fun b hb1 hb2 => h b (by omega) (by omega))

/-! ## Claim C7: guard rejection of empty and out-of-range runs -/

/-- C7: for a bitmap of capacity `capacity`, a call with `count = 0`, or
`start ≥ capacity`, or `start + count > capacity`, leaves the bitmap and its
word buffer unchanged (`RtlSetBits`) or returns false (the two tests), and
touches no word of the buffer at all (the access list is empty). -/
theorem bitmap_guard_rejection (capacity : Nat) (buf : List Nat) (start count : Nat)
    (h : count = 0 ∨ capacity ≤ start ∨ capacity < start + count) :
    RtlSetBits (some ⟨capacity, some buf⟩) start count = (some ⟨capacity, some buf⟩, []) ∧
    RtlAreBitsSet (some ⟨capacity, some buf⟩) start count = (false, []) ∧
    RtlAreBitsClear (some ⟨capacity, some buf⟩) start count = (false, []) := by
  by_cases hc : count = 0
  · simp [RtlSetBits, RtlAreBitsSet, RtlAreBitsClear, hc]
  · have hg : capacity ≤ start ∨ capacity - start < count := by omega
    simp [RtlSetBits, RtlAreBitsSet, RtlAreBitsClear, hc, hg]

/-- Witness for C7 at capacity 8, starting bit 9, count 1. -/
theorem bitmap_guard_rejection_witness :
    ((1 : Nat) = 0 ∨ (8 : Nat) ≤ 9 ∨ (8 : Nat) < 9 + 1) ∧
    (RtlSetBits (some ⟨8, some [0]⟩) 9 1 = (some ⟨8, some [0]⟩, []) ∧
     RtlAreBitsSet (some ⟨8, some [0]⟩) 9 1 = (false, []) ∧
     RtlAreBitsClear (some ⟨8, some [0]⟩) 9 1 = (false, [])) :=
  ⟨by decide, bitmap_guard_rejection 8 [0] 9 1 (by decide)⟩

/-! ## Claim C8 (corrected): set-then-test round trip needs a nonempty run -/

/-- Counterexample to C8 as stated: at capacity 1 with `start = 0` and
`count = 0` we have `start + count ≤ capacity`, yet `RtlSetBits` followed by
`RtlAreBitsSet` returns false, because both calls reject a zero-length run. -/
theorem bitmap_set_then_test_cex :
    (0 + 0 ≤ 1) ∧
    (RtlAreBitsSet (RtlSetBits (some ⟨1, some [0]⟩) 0 0).1 0 0).1 = false := by
  decide

/-- C8 (amended): for a bitmap of capacity `capacity` over a word buffer
covering every bit below `capacity`, and a run with `count ≥ 1` and
`start + count ≤ capacity`, `RtlSetBits` followed by `RtlAreBitsSet` on the
same run returns true; and if the run was entirely clear beforehand,
`RtlAreBitsClear` on it returns true. -/
theorem bitmap_set_then_test (capacity : Nat) (buf : List Nat) (start count : Nat)
    (hwf : ∀ b, b < capacity → b / 32 < buf.length)
    (hcount : 1 ≤ count) (hrange : start + count ≤ capacity) :
    (RtlAreBitsSet (RtlSetBits (some ⟨capacity, some buf⟩) start count).1 start count).1
      = true ∧
    ((∀ b, start ≤ b → b < start + count → bitIsSet buf b = false) →
      (RtlAreBitsClear (some ⟨capacity, some buf⟩) start count).1 = true) := by
  have hc : ¬ count = 0 := by omega
  have hg : ¬ (capacity ≤ start ∨ capacity - start < count) := by
    simp only [not_or]
    omega
  constructor
  · have hset : RtlSetBits (some ⟨capacity, some buf⟩) start count =
        (some ⟨capacity, some (RtlSetBitsLoop buf start count).1⟩,
         (RtlSetBitsLoop buf start count).2) := by
      simp [RtlSetBits, hc, hg]
    rw [hset]
    simp only [RtlAreBitsSet]
    rw [if_neg hc, if_neg hg]
    apply RtlAreBitsSetLoop_all
    intro b hb1 hb2
    exact RtlSetBitsLoop_sets count buf start b hb1 hb2
      (fun j hj1 hj2 => hwf j (by omega))
  · intro hclear
    simp only [RtlAreBitsClear]
    rw [if_neg hc, if_neg hg]
    exact RtlAreBitsClearLoop_all count buf start hclear

/-- Witness for the amended C8 at capacity 64 over a two-word buffer, run
[3, 8). -/
theorem bitmap_set_then_test_witness :
    (∀ b, b < 64 → b / 32 < ([0, 0] : List Nat).length) ∧
    ((1 : Nat) ≤ 5 ∧ 3 + 5 ≤ 64) ∧
    ((RtlAreBitsSet (RtlSetBits (some ⟨64, some [0, 0]⟩) 3 5).1 3 5).1 = true ∧
     ((∀ b, 3 ≤ b → b < 3 + 5 → bitIsSet [0, 0] b = false) →
       (RtlAreBitsClear (some ⟨64, some [0, 0]⟩) 3 5).1 = true)) :=
  ⟨by decide, ⟨by decide, by decide⟩,
    bitmap_set_then_test 64 [0, 0] 3 5 (by decide) (by decide) (by decide)⟩

/-! ## Claim C10: frame property of an in-range RtlSetBits -/

/-- C10: an in-range `RtlSetBits` call (`count > 0`,
`start + count ≤ capacity`) leaves every bit outside `[start, start + count)`
with exactly the value it had before, and every bit inside the run that was
already set stays set. -/
theorem setBits_frame (capacity : Nat) (buf buf2 : List Nat) (start count : Nat)
    (hcount : 0 < count) (hrange : start + count ≤ capacity)
    (heq : (RtlSetBits (some ⟨capacity, some buf⟩) start count).1 =
      some ⟨capacity, some buf2⟩) :
    (∀ b, b < start ∨ start + count ≤ b → bitIsSet buf2 b = bitIsSet buf b) ∧
    (∀ b, start ≤ b → b < start + count → bitIsSet buf b = true →
      bitIsSet buf2 b = true) := by
  have hc : ¬ count = 0 := by omega
  have hg : ¬ (capacity ≤ start ∨ capacity - start < count) := by
    simp only [not_or]
    omega
  simp [RtlSetBits, hc, hg] at heq
  constructor
  · intro b hb
    rw [← heq]
    exact RtlSetBitsLoop_frame count buf start b hb
  · intro b _ _ hset
    rw [← heq]
    exact RtlSetBitsLoop_mono count buf start b hset

/-- Witness for C10: capacity 64, buffer with bits 0 and 2 set, run [1, 3). -/
theorem setBits_frame_witness :
    ((0 : Nat) < 2 ∧ 1 + 2 ≤ 64) ∧
    (RtlSetBits (some ⟨64, some [5, 0]⟩) 1 2).1 = some ⟨64, some [7, 0]⟩ ∧
    ((∀ b, b < 1 ∨ 1 + 2 ≤ b → bitIsSet [7, 0] b = bitIsSet [5, 0] b) ∧
     (∀ b, 1 ≤ b → b < 1 + 2 → bitIsSet [5, 0] b = true → bitIsSet [7, 0] b = true)) :=
  ⟨by decide, by decide, setBits_frame 64 [5, 0] [7, 0] 1 2 (by decide) (by decide)
    (by decide)⟩

/-! ## File information query engine (lines 61-191 and 290-361).
Host calls are an oracle: each query either succeeds with the data the host
fills in, or fails with the `GetLastError` code observed afterwards. -/

/-- Host `FILETIME` (two 32-bit halves). -/
structure FILETIME where
  dwLowDateTime : Nat
  dwHighDateTime : Nat
deriving DecidableEq

/-- Embedding of `filetime_to_large` (src/dlls/msvcrt/stubs.c, lines 12-18):
the low half becomes `LowPart`, the high half's bit pattern becomes
`HighPart`. -/
def filetime_to_large (ft : FILETIME) : LARGE_INTEGER :=
  ⟨ft.dwLowDateTime, ft.dwHighDateTime⟩

/-- Host-side `FILE_BASIC_INFO` returned by
`GetFileInformationByHandleEx(FileBasicInfo)`. -/
structure FILE_BASIC_INFO where
  CreationTime : LARGE_INTEGER
  LastAccessTime : LARGE_INTEGER
  LastWriteTime : LARGE_INTEGER
  ChangeTime : LARGE_INTEGER
  FileAttributes : Nat
deriving DecidableEq

/-- Guest `FILE_BASIC_INFORMATION` output structure. -/
structure FILE_BASIC_INFORMATION where
  CreationTime : LARGE_INTEGER
  LastAccessTime : LARGE_INTEGER
  LastWriteTime : LARGE_INTEGER
  ChangeTime : LARGE_INTEGER
  FileAttributes : Nat
deriving DecidableEq

/-- Host-side `FILE_STANDARD_INFO` returned by
`GetFileInformationByHandleEx(FileStandardInfo)`. -/
structure FILE_STANDARD_INFO where
  AllocationSize : LARGE_INTEGER
  EndOfFile : LARGE_INTEGER
  NumberOfLinks : Nat
  DeletePending : Bool
  Directory : Bool
deriving DecidableEq

/-- Guest `FILE_STANDARD_INFORMATION` output structure. -/
structure FILE_STANDARD_INFORMATION where
  AllocationSize : LARGE_INTEGER
  EndOfFile : LARGE_INTEGER
  NumberOfLinks : Nat
  DeletePending : Bool
  Directory : Bool
deriving DecidableEq

/-- Host-side `FILE_ATTRIBUTE_TAG_INFO` returned by
`GetFileInformationByHandleEx(FileAttributeTagInfo)`. -/
structure FILE_ATTRIBUTE_TAG_INFO where
  FileAttributes : Nat
  ReparseTag : Nat
deriving DecidableEq

/-- Guest `FILE_ATTRIBUTE_TAG_INFORMATION` output structure. -/
structure FILE_ATTRIBUTE_TAG_INFORMATION where
  FileAttributes : Nat
  ReparseTag : Nat
deriving DecidableEq

/-- Host-side `BY_HANDLE_FILE_INFORMATION` returned by the legacy
`GetFileInformationByHandle`. -/
structure BY_HANDLE_FILE_INFORMATION where
  dwFileAttributes : Nat
  ftCreationTime : FILETIME
  ftLastAccessTime : FILETIME
  ftLastWriteTime : FILETIME
  nFileSizeHigh : Nat
  nFileSizeLow : Nat
  nNumberOfLinks : Nat
deriving DecidableEq

/-- FILE_ATTRIBUTE_DIRECTORY flag (winnt.h value 0x10). -/
def FILE_ATTRIBUTE_DIRECTORY : Nat := 16

/-- Outcome of the host name query
`GetFileInformationByHandleEx(FileNameInfo, buffer, length)`: on success, and
on the documented overflow failure, the host has stored `FileNameLength` (the
full name length in bytes) into the caller buffer; on failure the
`GetLastError` code is also given. -/
inductive NameQueryOutcome where
  | ok (fileNameLength : Nat)
  | fail (error : Nat) (fileNameLength : Nat)
deriving DecidableEq

/-- Oracle for the host Win32 calls made on one handle: each field is the
outcome of the corresponding call (`Except.error e` meaning the call fails and
`GetLastError()` then returns `e`). -/
structure Host where
  modernBasic : Except Nat FILE_BASIC_INFO
  modernStandard : Except Nat FILE_STANDARD_INFO
  modernTag : Except Nat FILE_ATTRIBUTE_TAG_INFO
  legacy : Except Nat BY_HANDLE_FILE_INFORMATION
  seekCurrent : Except Nat LARGE_INTEGER
  nameQuery : NameQueryOutcome

/-- Result of one per-class handler: the returned NTSTATUS, the output
structure when the handler filled it, and how many times the legacy
`GetFileInformationByHandle` call was made. -/
structure HandlerOutcome (α : Type) where
  status : Nat
  info : Option α
  legacyCalls : Nat

/-- Shallow embedding of `query_basic_information` (src/dlls/msvcrt/stubs.c,
lines 61-92). -/
def query_basic_information (host : Host) : HandlerOutcome FILE_BASIC_INFORMATION :=
  match host.modernBasic with
  | Except.ok basic =>
    ⟨STATUS_SUCCESS,
     some ⟨basic.CreationTime, basic.LastAccessTime, basic.LastWriteTime,
       basic.ChangeTime, basic.FileAttributes⟩, 0⟩
  | Except.error error =>
    if ! should_fallback_to_legacy_file_info error then
      ⟨status_from_win32_error error, none, 0⟩
    else
      match host.legacy with
      | Except.error e2 => ⟨status_from_win32_error e2, none, 1⟩
      | Except.ok bhfi =>
        ⟨STATUS_SUCCESS,
         some ⟨filetime_to_large bhfi.ftCreationTime,
           filetime_to_large bhfi.ftLastAccessTime,
           filetime_to_large bhfi.ftLastWriteTime,
           filetime_to_large bhfi.ftLastWriteTime,
           bhfi.dwFileAttributes⟩, 1⟩

/-- Shallow embedding of `query_standard_information` (src/dlls/msvcrt/stubs.c,
lines 94-126).  On the legacy path `AllocationSize` is assembled from the two
legacy file-size halves and copied into `EndOfFile`. -/
def query_standard_information (host : Host) : HandlerOutcome FILE_STANDARD_INFORMATION :=
  match host.modernStandard with
  | Except.ok standard_info =>
    ⟨STATUS_SUCCESS,
     some ⟨standard_info.AllocationSize, standard_info.EndOfFile,
       standard_info.NumberOfLinks, standard_info.DeletePending,
       standard_info.Directory⟩, 0⟩
  | Except.error error =>
    if ! should_fallback_to_legacy_file_info error then
      ⟨status_from_win32_error error, none, 0⟩
    else
      match host.legacy with
      | Except.error e2 => ⟨status_from_win32_error e2, none, 1⟩
      | Except.ok bhfi =>
        ⟨STATUS_SUCCESS,
         some ⟨⟨bhfi.nFileSizeLow, bhfi.nFileSizeHigh⟩,
           ⟨bhfi.nFileSizeLow, bhfi.nFileSizeHigh⟩,
           bhfi.nNumberOfLinks, false,
           bhfi.dwFileAttributes &&& FILE_ATTRIBUTE_DIRECTORY != 0⟩, 1⟩

/-- Shallow embedding of `query_attribute_tag_information`
(src/dlls/msvcrt/stubs.c, lines 128-153). -/
def query_attribute_tag_information (host : Host) :
    HandlerOutcome FILE_ATTRIBUTE_TAG_INFORMATION :=
  match host.modernTag with
  | Except.ok tag_info =>
    ⟨STATUS_SUCCESS, some ⟨tag_info.FileAttributes, tag_info.ReparseTag⟩, 0⟩
  | Except.error error =>
    if ! should_fallback_to_legacy_file_info error then
      ⟨status_from_win32_error error, none, 0⟩
    else
      match host.legacy with
      | Except.error e2 => ⟨status_from_win32_error e2, none, 1⟩
      | Except.ok bhfi => ⟨STATUS_SUCCESS, some ⟨bhfi.dwFileAttributes, 0⟩, 1⟩

/-- Shallow embedding of `query_position_information` (src/dlls/msvcrt/stubs.c,
lines 155-167): a relative seek by zero reads the current offset. -/
def query_position_information (host : Host) : Nat × Option LARGE_INTEGER :=
  match host.seekCurrent with
  | Except.error e => (status_from_win32_error e, none)
  | Except.ok current => (STATUS_SUCCESS, some current)

/-- Shallow embedding of `query_name_information` (src/dlls/msvcrt/stubs.c,
lines 169-191), returning the NTSTATUS and the bytes-written count `*written`. -/
def query_name_information (host : Host) (length : Nat) : Nat × Nat :=
  match host.nameQuery with
  | NameQueryOutcome.fail error fileNameLength =>
    let status := status_from_win32_error error
    if status = STATUS_BUFFER_OVERFLOW ∧ 4 ≤ length then
      (status, 4 + fileNameLength)
    else (status, 0)
  | NameQueryOutcome.ok fileNameLength =>
    if 4 ≤ length then (STATUS_SUCCESS, 4 + fileNameLength)
    else (STATUS_SUCCESS, 0)

/-! ## NtQueryInformationFile dispatcher (lines 290-361) -/

/-- FILE_INFORMATION_CLASS values used by the dispatcher (winternl.h). -/
def FileBasicInformation : Nat := 4

def FileStandardInformation : Nat := 5

def FileNameInformation : Nat := 9

def FilePositionInformation : Nat := 14

def FileAttributeTagInformation : Nat := 35

/-- Byte size of the guest `FILE_BASIC_INFORMATION` under the Windows ABI
(four 8-byte LARGE_INTEGERs plus a ULONG, padded to 8-byte alignment). -/
def sizeof_FILE_BASIC_INFORMATION : Nat := 40

/-- Byte size of the guest `FILE_STANDARD_INFORMATION` (two 8-byte sizes, a
ULONG, two BOOLEANs, padded). -/
def sizeof_FILE_STANDARD_INFORMATION : Nat := 24

/-- Byte size of the guest `FILE_POSITION_INFORMATION` (one LARGE_INTEGER). -/
def sizeof_FILE_POSITION_INFORMATION : Nat := 8

/-- Byte size of the guest `FILE_ATTRIBUTE_TAG_INFORMATION` (two ULONGs). -/
def sizeof_FILE_ATTRIBUTE_TAG_INFORMATION : Nat := 8

/-- Byte size of a ULONG, the NameInfo length prefix. -/
def sizeof_ULONG : Nat := 4

/-- Guest `IO_STATUS_BLOCK` contents (`Status` and `Information`, the latter
being the bytes-written count). -/
structure IoStatusBlock where
  Status : Nat
  Information : Nat
deriving DecidableEq

/-- Observable outcome of one `NtQueryInformationFile` call: the returned
NTSTATUS, the final contents of the caller's IO status block (`none` when the
`io` pointer was null and therefore never written), and the number of host
Win32 calls made.  The queried data itself is modelled by the per-class
handlers above. -/
structure NtQueryResult where
  ret : Nat
  io : Option IoStatusBlock
  hostCalls : Nat
deriving DecidableEq

/-- Shallow embedding of `NtQueryInformationFile` (src/dlls/msvcrt/stubs.c,
lines 290-361).  `handleNull`/`ioNull`/`bufferNull` model null pointer
arguments; the C `switch` becomes a chain of equality tests on
`information_class` in the same case order. -/
def NtQueryInformationFile (host : Host) (handleNull ioNull bufferNull : Bool)
    (length information_class : Nat) : NtQueryResult :=
  if ioNull then ⟨STATUS_INVALID_PARAMETER, none, 0⟩
  else if handleNull || bufferNull then
    ⟨STATUS_INVALID_PARAMETER, some ⟨STATUS_INVALID_PARAMETER, 0⟩, 0⟩
  else if information_class = FileBasicInformation then
    if length < sizeof_FILE_BASIC_INFORMATION then
      ⟨STATUS_INFO_LENGTH_MISMATCH, some ⟨STATUS_INFO_LENGTH_MISMATCH, 0⟩, 0⟩
    else
      let r := query_basic_information host
      ⟨r.status,
       some ⟨r.status, if r.status = STATUS_SUCCESS then sizeof_FILE_BASIC_INFORMATION else 0⟩,
       1 + r.legacyCalls⟩
  else if information_class = FileStandardInformation then
    if length < sizeof_FILE_STANDARD_INFORMATION then
      ⟨STATUS_INFO_LENGTH_MISMATCH, some ⟨STATUS_INFO_LENGTH_MISMATCH, 0⟩, 0⟩
    else
      let r := query_standard_information host
      ⟨r.status,
       some ⟨r.status,
         if r.status = STATUS_SUCCESS then sizeof_FILE_STANDARD_INFORMATION else 0⟩,
       1 + r.legacyCalls⟩
  else if information_class = FilePositionInformation then
    if length < sizeof_FILE_POSITION_INFORMATION then
      ⟨STATUS_INFO_LENGTH_MISMATCH, some ⟨STATUS_INFO_LENGTH_MISMATCH, 0⟩, 0⟩
    else
      let r := query_position_information host
      ⟨r.1,
       some ⟨r.1, if r.1 = STATUS_SUCCESS then sizeof_FILE_POSITION_INFORMATION else 0⟩,
       1⟩
  else if information_class = FileNameInformation then
    if length < sizeof_ULONG then
      ⟨STATUS_INFO_LENGTH_MISMATCH, some ⟨STATUS_INFO_LENGTH_MISMATCH, 0⟩, 0⟩
    else
      let r := query_name_information host length
      ⟨r.1, some ⟨r.1, r.2⟩, 1⟩
  else if information_class = FileAttributeTagInformation then
    if length < sizeof_FILE_ATTRIBUTE_TAG_INFORMATION then
      ⟨STATUS_INFO_LENGTH_MISMATCH, some ⟨STATUS_INFO_LENGTH_MISMATCH, 0⟩, 0⟩
    else
      let r := query_attribute_tag_information host
      ⟨r.status,
       some ⟨r.status,
         if r.status = STATUS_SUCCESS then sizeof_FILE_ATTRIBUTE_TAG_INFORMATION else 0⟩,
       1 + r.legacyCalls⟩
  else ⟨STATUS_INVALID_INFO_CLASS, some ⟨STATUS_INVALID_INFO_CLASS, 0⟩, 0⟩

/-! ## Claim C1: the legacy fallback policy of the three handlers -/

/-- C1: for each of the Basic, Standard and AttributeTag handlers, when the
modern host query fails, the legacy whole-file-information query is made
exactly when the host error lies in the fixed closed set
{ERROR_CALL_NOT_IMPLEMENTED, ERROR_INVALID_FUNCTION, ERROR_NOT_SUPPORTED}
(so at most once); any other host error is translated by
`status_from_win32_error` and returned without the fallback; and when the
legacy call itself fails, its error is translated and returned. -/
theorem fallback_policy (hb hs ht : Host) (eb es et : Nat)
    (Hb : hb.modernBasic = Except.error eb)
    (Hs : hs.modernStandard = Except.error es)
    (Ht : ht.modernTag = Except.error et) :
    (∀ e, should_fallback_to_legacy_file_info e = true ↔
      (e = ERROR_CALL_NOT_IMPLEMENTED ∨ e = ERROR_INVALID_FUNCTION ∨
        e = ERROR_NOT_SUPPORTED)) ∧
    ((query_basic_information hb).legacyCalls =
      if should_fallback_to_legacy_file_info eb then 1 else 0) ∧
    ((query_standard_information hs).legacyCalls =
      if should_fallback_to_legacy_file_info es then 1 else 0) ∧
    ((query_attribute_tag_information ht).legacyCalls =
      if should_fallback_to_legacy_file_info et then 1 else 0) ∧
    (should_fallback_to_legacy_file_info eb = false →
      query_basic_information hb = ⟨status_from_win32_error eb, none, 0⟩) ∧
    (should_fallback_to_legacy_file_info es = false →
      query_standard_information hs = ⟨status_from_win32_error es, none, 0⟩) ∧
    (should_fallback_to_legacy_file_info et = false →
      query_attribute_tag_information ht = ⟨status_from_win32_error et, none, 0⟩) ∧
    (∀ e2, should_fallback_to_legacy_file_info eb = true →
      hb.legacy = Except.error e2 →
      query_basic_information hb = ⟨status_from_win32_error e2, none, 1⟩) ∧
    (∀ e2, should_fallback_to_legacy_file_info es = true →
      hs.legacy = Except.error e2 →
      query_standard_information hs = ⟨status_from_win32_error e2, none, 1⟩) ∧
    (∀ e2, should_fallback_to_legacy_file_info et = true →
      ht.legacy = Except.error e2 →
      query_attribute_tag_information ht = ⟨status_from_win32_error e2, none, 1⟩) := by
  refine ⟨?_, ?_, ?_, ?_, ?_, ?_, ?_, ?_, ?_, ?_⟩
  · intro e
    simp [should_fallback_to_legacy_file_info, ERROR_CALL_NOT_IMPLEMENTED,
      ERROR_INVALID_FUNCTION, ERROR_NOT_SUPPORTED]
    tauto
  · by_cases hf : should_fallback_to_legacy_file_info eb
    · cases hleg : hb.legacy <;> simp [query_basic_information, Hb, hf, hleg]
    · simp [query_basic_information, Hb, hf]
  · by_cases hf : should_fallback_to_legacy_file_info es
    · cases hleg : hs.legacy <;> simp [query_standard_information, Hs, hf, hleg]
    · simp [query_standard_information, Hs, hf]
  · by_cases hf : should_fallback_to_legacy_file_info et
    · cases hleg : ht.legacy <;> simp [query_attribute_tag_information, Ht, hf, hleg]
    · simp [query_attribute_tag_information, Ht, hf]
  · intro hf
    simp [query_basic_information, Hb, hf]
  · intro hf
    simp [query_standard_information, Hs, hf]
  · intro hf
    simp [query_attribute_tag_information, Ht, hf]
  · intro e2 hf hleg
    simp [query_basic_information, Hb, hf, hleg]
  · intro e2 hf hleg
    simp [query_standard_information, Hs, hf, hleg]
  · intro e2 hf hleg
    simp [query_attribute_tag_information, Ht, hf, hleg]

/-- Concrete host used by witnesses: modern Basic fails with ACCESS_DENIED
(no fallback), modern Standard with CALL_NOT_IMPLEMENTED and modern
AttributeTag with NOT_SUPPORTED (fallback), and the legacy call fails with
FILE_NOT_FOUND. -/
def hostMixedErrors : Host :=
  ⟨Except.error 5, Except.error 120, Except.error 50, Except.error 2,
   Except.ok ⟨0, 0⟩, NameQueryOutcome.ok 0⟩

/-- Witness for C1: on `hostMixedErrors`, the Basic handler translates
ACCESS_DENIED without a legacy call, and the AttributeTag handler falls back
once and translates the legacy FILE_NOT_FOUND failure. -/
theorem fallback_policy_witness :
    (hostMixedErrors.modernBasic = Except.error 5 ∧
     hostMixedErrors.modernStandard = Except.error 120 ∧
     hostMixedErrors.modernTag = Except.error 50) ∧
    query_basic_information hostMixedErrors = ⟨STATUS_ACCESS_DENIED, none, 0⟩ ∧
    query_attribute_tag_information hostMixedErrors =
      ⟨STATUS_OBJECT_NAME_NOT_FOUND, none, 1⟩ :=
  ⟨⟨rfl, rfl, rfl⟩,
   (fallback_policy hostMixedErrors hostMixedErrors hostMixedErrors 5 120 50
     rfl rfl rfl).2.2.2.2.1 (by decide),
   (fallback_policy hostMixedErrors hostMixedErrors hostMixedErrors 5 120 50
     rfl rfl rfl).2.2.2.2.2.2.2.2.2 2 (by decide) rfl⟩

/-! ## Claim C2: facet derivation on the legacy fallback path -/

/-- C2: whenever a handler succeeds via the legacy fallback, BasicInfo's
ChangeTime equals its LastWriteTime, StandardInfo's AllocationSize and
EndOfFile both equal the legacy file-size field (the two 32-bit size halves),
and AttributeTagInfo's ReparseTag is 0. -/
theorem legacy_fallback_fields (hb hs ht : Host) (eb es et : Nat)
    (bb bs2 bt : BY_HANDLE_FILE_INFORMATION)
    (Hb : hb.modernBasic = Except.error eb)
    (Hbf : should_fallback_to_legacy_file_info eb = true)
    (Hbl : hb.legacy = Except.ok bb)
    (Hs : hs.modernStandard = Except.error es)
    (Hsf : should_fallback_to_legacy_file_info es = true)
    (Hsl : hs.legacy = Except.ok bs2)
    (Ht : ht.modernTag = Except.error et)
    (Htf : should_fallback_to_legacy_file_info et = true)
    (Htl : ht.legacy = Except.ok bt) :
    (query_basic_information hb).status = STATUS_SUCCESS ∧
    (∀ i, (query_basic_information hb).info = some i →
      i.ChangeTime = i.LastWriteTime) ∧
    (query_standard_information hs).status = STATUS_SUCCESS ∧
    (∀ i, (query_standard_information hs).info = some i →
      i.AllocationSize = ⟨bs2.nFileSizeLow, bs2.nFileSizeHigh⟩ ∧
      i.EndOfFile = i.AllocationSize) ∧
    (query_attribute_tag_information ht).status = STATUS_SUCCESS ∧
    (∀ i, (query_attribute_tag_information ht).info = some i → i.ReparseTag = 0) := by
  refine ⟨?_, ?_, ?_, ?_, ?_, ?_⟩
  · simp [query_basic_information, Hb, Hbf, Hbl]
  · intro i hi
    have hinfo : (query_basic_information hb).info =
        some ⟨filetime_to_large bb.ftCreationTime, filetime_to_large bb.ftLastAccessTime,
          filetime_to_large bb.ftLastWriteTime, filetime_to_large bb.ftLastWriteTime,
          bb.dwFileAttributes⟩ := by
      simp [query_basic_information, Hb, Hbf, Hbl]
    rw [hinfo, Option.some.injEq] at hi
    rw [← hi]
  · simp [query_standard_information, Hs, Hsf, Hsl]
  · intro i hi
    have hinfo : (query_standard_information hs).info =
        some ⟨⟨bs2.nFileSizeLow, bs2.nFileSizeHigh⟩, ⟨bs2.nFileSizeLow, bs2.nFileSizeHigh⟩,
          bs2.nNumberOfLinks, false,
          bs2.dwFileAttributes &&& FILE_ATTRIBUTE_DIRECTORY != 0⟩ := by
      simp [query_standard_information, Hs, Hsf, Hsl]
    rw [hinfo, Option.some.injEq] at hi
    rw [← hi]
    exact ⟨rfl, rfl⟩
  · simp [query_attribute_tag_information, Ht, Htf, Htl]
  · intro i hi
    have hinfo : (query_attribute_tag_information ht).info =
        some ⟨bt.dwFileAttributes, 0⟩ := by
      simp [query_attribute_tag_information, Ht, Htf, Htl]
    rw [hinfo, Option.some.injEq] at hi
    rw [← hi]

/-- Legacy whole-file information record used by witnesses: a 42-byte
directory-flagged file with 3 hard links. -/
def bhfiSample : BY_HANDLE_FILE_INFORMATION :=
  ⟨16, ⟨1, 2⟩, ⟨3, 4⟩, ⟨5, 6⟩, 0, 42, 3⟩

/-- Concrete host whose three modern queries all fail with NOT_SUPPORTED and
whose legacy query succeeds with `bhfiSample`. -/
def hostLegacyOnly : Host :=
  ⟨Except.error 50, Except.error 50, Except.error 50, Except.ok bhfiSample,
   Except.ok ⟨0, 0⟩, NameQueryOutcome.ok 0⟩

/-- Witness for C2 on `hostLegacyOnly`. -/
theorem legacy_fallback_fields_witness :
    (hostLegacyOnly.modernBasic = Except.error 50 ∧
     hostLegacyOnly.legacy = Except.ok bhfiSample) ∧
    (query_basic_information hostLegacyOnly).status = STATUS_SUCCESS ∧
    (query_standard_information hostLegacyOnly).status = STATUS_SUCCESS ∧
    (query_attribute_tag_information hostLegacyOnly).status = STATUS_SUCCESS :=
  ⟨⟨rfl, rfl⟩,
   (legacy_fallback_fields hostLegacyOnly hostLegacyOnly hostLegacyOnly 50 50 50
     bhfiSample bhfiSample bhfiSample rfl (by decide) rfl rfl (by decide) rfl rfl
     (by decide) rfl).1,
   (legacy_fallback_fields hostLegacyOnly hostLegacyOnly hostLegacyOnly 50 50 50
     bhfiSample bhfiSample bhfiSample rfl (by decide) rfl rfl (by decide) rfl rfl
     (by decide) rfl).2.2.1,
   (legacy_fallback_fields hostLegacyOnly hostLegacyOnly hostLegacyOnly 50 50 50
     bhfiSample bhfiSample bhfiSample rfl (by decide) rfl rfl (by decide) rfl rfl
     (by decide) rfl).2.2.2.2.1⟩

/-! ## Claim C3: caller-misuse validation in NtQueryInformationFile -/

/-- C3: a null handle or null buffer yields STATUS_INVALID_PARAMETER; a
fixed-size class (Basic, Standard, Position, AttributeTag) with a buffer
length strictly below the structure's exact size yields
STATUS_INFO_LENGTH_MISMATCH; an information class outside the five recognized
ones yields STATUS_INVALID_INFO_CLASS; and in all three misuse cases the
bytes-written count is 0 and no host call is made. -/
theorem queryInformation_validation (host : Host) (handleNull bufferNull : Bool)
    (length information_class : Nat) :
    ((handleNull = true ∨ bufferNull = true) →
      NtQueryInformationFile host handleNull false bufferNull length information_class =
        ⟨STATUS_INVALID_PARAMETER, some ⟨STATUS_INVALID_PARAMETER, 0⟩, 0⟩) ∧
    (handleNull = false → bufferNull = false →
      ((information_class = FileBasicInformation ∧
          length < sizeof_FILE_BASIC_INFORMATION) ∨
       (information_class = FileStandardInformation ∧
          length < sizeof_FILE_STANDARD_INFORMATION) ∨
       (information_class = FilePositionInformation ∧
          length < sizeof_FILE_POSITION_INFORMATION) ∨
       (information_class = FileAttributeTagInformation ∧
          length < sizeof_FILE_ATTRIBUTE_TAG_INFORMATION)) →
      NtQueryInformationFile host handleNull false bufferNull length information_class =
        ⟨STATUS_INFO_LENGTH_MISMATCH, some ⟨STATUS_INFO_LENGTH_MISMATCH, 0⟩, 0⟩) ∧
    (handleNull = false → bufferNull = false →
      information_class ≠ FileBasicInformation →
      information_class ≠ FileStandardInformation →
      information_class ≠ FilePositionInformation →
      information_class ≠ FileNameInformation →
      information_class ≠ FileAttributeTagInformation →
      NtQueryInformationFile host handleNull false bufferNull length information_class =
        ⟨STATUS_INVALID_INFO_CLASS, some ⟨STATUS_INVALID_INFO_CLASS, 0⟩, 0⟩) := by
  refine ⟨?_, ?_, ?_⟩
  · intro h
    rcases h with h | h <;> subst h <;> simp [NtQueryInformationFile]
  · intro h1 h2 hcase
    subst h1; subst h2
    rcases hcase with ⟨hc, hl⟩ | ⟨hc, hl⟩ | ⟨hc, hl⟩ | ⟨hc, hl⟩ <;> subst hc <;>
      simp [NtQueryInformationFile, FileBasicInformation, FileStandardInformation,
        FilePositionInformation, FileNameInformation, FileAttributeTagInformation, hl]
  · intro h1 h2 hn1 hn2 hn3 hn4 hn5
    subst h1; subst h2
    simp [NtQueryInformationFile, hn1, hn2, hn3, hn4, hn5]

/-- Witness for C3: Basic with a buffer one byte short (39 of 40), a null
handle, and the unrecognized class 7. -/
theorem queryInformation_validation_witness :
    NtQueryInformationFile hostMixedErrors false false false 39 4 =
      ⟨STATUS_INFO_LENGTH_MISMATCH, some ⟨STATUS_INFO_LENGTH_MISMATCH, 0⟩, 0⟩ ∧
    NtQueryInformationFile hostMixedErrors true false false 40 4 =
      ⟨STATUS_INVALID_PARAMETER, some ⟨STATUS_INVALID_PARAMETER, 0⟩, 0⟩ ∧
    NtQueryInformationFile hostMixedErrors false false false 100 7 =
      ⟨STATUS_INVALID_INFO_CLASS, some ⟨STATUS_INVALID_INFO_CLASS, 0⟩, 0⟩ :=
  ⟨(queryInformation_validation hostMixedErrors false false 39 4).2.1 rfl rfl
     (Or.inl ⟨rfl, by decide⟩),
   (queryInformation_validation hostMixedErrors true false 40 4).1 (Or.inl rfl),
   (queryInformation_validation hostMixedErrors false false 100 7).2.2 rfl rfl
     (by decide) (by decide) (by decide) (by decide) (by decide)⟩

/-! ## Claim C9: NameInfo bytes-written on overflow, failure and success -/

/-- C9: for a NameInfo query with a buffer at least the 4-byte length prefix,
a host failure translating to STATUS_BUFFER_OVERFLOW still reports the full
required length (prefix plus full name length) in bytes-written; any other
host failure reports 0; success reports prefix plus name length. -/
theorem nameInfo_byteswritten (host : Host) (length : Nat) (hlen : 4 ≤ length) :
    (∀ e fnl, host.nameQuery = NameQueryOutcome.fail e fnl →
      status_from_win32_error e = STATUS_BUFFER_OVERFLOW →
      query_name_information host length = (STATUS_BUFFER_OVERFLOW, 4 + fnl)) ∧
    (∀ e fnl, host.nameQuery = NameQueryOutcome.fail e fnl →
      status_from_win32_error e ≠ STATUS_BUFFER_OVERFLOW →
      query_name_information host length = (status_from_win32_error e, 0)) ∧
    (∀ fnl, host.nameQuery = NameQueryOutcome.ok fnl →
      query_name_information host length = (STATUS_SUCCESS, 4 + fnl)) := by
  refine ⟨?_, ?_, ?_⟩
  · intro e fnl hq hov
    simp [query_name_information, hq, hov, hlen]
  · intro e fnl hq hov
    simp [query_name_information, hq, hov]
  · intro fnl hq
    simp [query_name_information, hq, hlen]

/-- Concrete host whose name query overflows with ERROR_BUFFER_OVERFLOW and a
10-byte full name. -/
def hostNameOverflow : Host :=
  ⟨Except.error 5, Except.error 5, Except.error 5, Except.error 6,
   Except.ok ⟨0, 0⟩, NameQueryOutcome.fail 111 10⟩

/-- Witness for C9 on `hostNameOverflow` with an 8-byte buffer. -/
theorem nameInfo_byteswritten_witness :
    ((4 : Nat) ≤ 8) ∧
    query_name_information hostNameOverflow 8 = (STATUS_BUFFER_OVERFLOW, 14) :=
  ⟨by decide,
   (nameInfo_byteswritten hostNameOverflow 8 (by decide)).1 111 10 rfl (by decide)⟩
